import Mathlib

/-!
Verification of the MRO-Supply distributed harvesting engine.

This file gives a shallow embedding of the core components of the repository
and proves (or refutes) the specification claims about them:

* the Work Partitioner (`RaptorSuppliesWorker._assign_batch` in
  `raptorsupplies_github_worker.py`, and `BatchScraper.generate_urls` in
  `serverless/batch_scraper.py`);
* the Checkpoint Store of `url_file_scraper_webshare.py`
  (`save_checkpoint`, `load_checkpoint`, `load_urls_from_file`) and the
  checkpoint loader of `raptorsupplies_scraper.py` (`_load_checkpoint`);
* the ban-detection state machine and the fetch-parse-retry pipeline of
  `RaptorSuppliesScraper` (`_handle_error`, `_check_ban_status`,
  `scrape_product`);
* the session lifecycle manager (`_get_session`, `_get_headers`);
* the Webshare identity pool (`WebshareProxyManager.get_next_proxy`) and the
  `URLFileScraper.scrape_product` pipeline.

Python dictionaries are modelled as association lists, wall-clock times as
natural numbers, and the network environment as an explicit function from
attempt number to outcome.  Side effects (requests issued, sleeps, files
written) are reified as an event trace so that statements such as "refused
before any network request" or "a Failure entry is written" are expressible.
-/

namespace MRO

/-! ## Definitions: shallow embedding of the harvesting engine -/

/-- `RaptorSuppliesWorker._assign_batch`: take the slice
`product_urls[start_index : start_index + total_products]`, then keep the
entries whose position `i` in the slice satisfies
`i % total_workers == worker_id` (interleaved / modulo policy). -/
def assignBatch (productUrls : List String) (startIndex totalProducts workerId totalWorkers : Nat) :
    List String :=
  let urlsToProcess := (productUrls.drop startIndex).take totalProducts
  (urlsToProcess.enum.filter (fun p => p.1 % totalWorkers == workerId)).map Prod.snd

/-- `BatchScraper.generate_urls` (slicing step): batch `batch_id` receives
`all_urls[batch_id * batch_size : batch_id * batch_size + batch_size]`
(contiguous-range policy). -/
def generateUrls (allUrls : List String) (batchId batchSize : Nat) : List String :=
  (allUrls.drop (batchId * batchSize)).take batchSize

/-- Effect of the Python dict update `data[k] = v`: replace the value if the
key is present, otherwise append the new pair (insertion order preserved). -/
def dictInsert {β : Type} (d : List (String × β)) (k : String) (v : β) :
    List (String × β) :=
  if d.any (fun p => p.1 == k) then
    d.map (fun p => if p.1 == k then (k, v) else p)
  else
    d ++ [(k, v)]

/-- A scraped product record as built by `URLFileScraper.extract_product_data`:
the required field is `name`; `url` is always set to the request URL. -/
structure UProduct where
  url : String
  name : String
  sku : String
  brand : String
  price : String
  deriving Repr, DecidableEq

/-- `URLFileScraper.save_checkpoint`: load the persisted dict, set
`data[product['url']] = product`, write it back.  The returned list is the
persisted state after the commit. -/
def save_checkpoint (data : List (String × UProduct)) (product : UProduct) :
    List (String × UProduct) :=
  dictInsert data product.url product

/-- The persisted checkpoint file: `none` when the file does not exist,
`some (.ok d)` when it parses to the dict `d`, `some (.error e)` when reading
or JSON-parsing raises with message `e`. -/
def PersistedCheckpoint := Option (Except String (List (String × UProduct)))

/-- `URLFileScraper.load_checkpoint`: if the file exists, parse it and return
`set(data.keys())`; any exception is caught and logged, and the function
returns the empty set; a missing file also yields the empty set. -/
def load_checkpoint (persisted : PersistedCheckpoint) : List String :=
  match persisted with
  | none => []
  | some (Except.ok data) => data.map Prod.fst
  | some (Except.error _) => []

/-- Python's `str.strip()`: remove leading and trailing whitespace
(an executable model of the library function). -/
def stripStr (s : String) : String :=
  String.mk (((s.data.dropWhile Char.isWhitespace).reverse.dropWhile Char.isWhitespace).reverse)

/-- `URLFileScraper.load_urls_from_file`: keep each stripped line that is
nonempty and not in the completed set, in file order. -/
def load_urls_from_file (lines : List String) (completed : List String) : List String :=
  lines.filterMap fun line =>
    let url := stripStr line
    if url ≠ "" ∧ url ∉ completed then some url else none

/-- The in-memory checkpoint dict of `RaptorSuppliesScraper` (fields used by
the engine; `timestamp`/`stats` omitted as pure metadata). -/
structure RCheckpoint where
  lastProductId : Nat
  productsScraped : Nat
  failedIds : List Nat
  deriving Repr, DecidableEq

/-- `RaptorSuppliesScraper._load_checkpoint`: a missing file yields the
default checkpoint; an existing file is parsed with **no** exception handler,
so a parse failure propagates (modelled as `Except.error`), aborting
`__init__`. -/
def raptor_load_checkpoint (persisted : Option (Except String RCheckpoint)) :
    Except String RCheckpoint :=
  match persisted with
  | none => Except.ok { lastProductId := 0, productsScraped := 0, failedIds := [] }
  | some r => r

/-! ## Rate Limiter / Ban-Detection and the Fetch-Parse-Retry Pipeline
(`raptorsupplies_scraper.py`) -/

/-- Configuration values read from `raptorsupplies_config.yml` by
`RaptorSuppliesScraper` (the fields the pipeline consults). -/
structure RConfig where
  checkAfterErrors : Nat
  cooldownPeriod : Nat
  maxRetries : Nat
  checkpointInterval : Nat
  deriving Repr, DecidableEq

/-- Mutable engine state of `RaptorSuppliesScraper` (the fields touched by
`scrape_product`, `_handle_error` and `_check_ban_status`). -/
structure RState where
  consecutiveErrors : Nat := 0
  banDetected : Bool := false
  cooldownUntil : Nat := 0
  requestsInSession : Nat := 0
  totalRequests : Nat := 0
  failedScrapes : Nat := 0
  successfulScrapes : Nat := 0
  productsScraped : Nat := 0
  bansDetected : Nat := 0
  lastProductId : Nat := 0
  deriving Repr, DecidableEq

/-- Outcome of one HTTP attempt inside `scrape_product`, supplied by the
environment: an HTTP response with its status code (and, for status 200, the
result `_parse_product` would produce on the body, `none` meaning the required
name field is absent), a `requests.exceptions.Timeout`, or any other raised
exception. -/
inductive ROutcome where
  | http (status : Nat) (parsed : Option Nat)
  | timeout
  | exn
  deriving Repr, DecidableEq

/-- Observable events of one `scrape_product` call.  A `request` event records
the wall-clock time of the attempt together with the ban state at the moment
the request is issued; `failureRecorded` is `_handle_error` writing
`error_<id>.json`; `checkpointUpdated`/`checkpointSaved` are the in-memory
update and the periodic `_save_checkpoint` flush. -/
inductive REvent where
  | sleep (secs : Nat)
  | rateLimitDelay
  | request (time attempt : Nat) (banDetected : Bool) (cooldownUntil : Nat)
  | failureRecorded (errType : String) (productId time : Nat)
  | checkpointUpdated (productId : Nat)
  | checkpointSaved
  deriving Repr, DecidableEq

/-- `RaptorSuppliesScraper._handle_error`: increment the consecutive-error
counter and the failed counter, write the error file, and if the counter has
reached `check_after_errors`, set the ban flag and
`cooldown_until = now + cooldown_period`. -/
def handle_error (cfg : RConfig) (now productId : Nat) (errType : String) (s : RState) :
    RState × REvent :=
  let s1 := { s with consecutiveErrors := s.consecutiveErrors + 1,
                     failedScrapes := s.failedScrapes + 1 }
  let ev := REvent.failureRecorded errType productId now
  if cfg.checkAfterErrors ≤ s1.consecutiveErrors then
    ({ s1 with banDetected := true,
               cooldownUntil := now + cfg.cooldownPeriod,
               bansDetected := s1.bansDetected + 1 }, ev)
  else
    (s1, ev)

/-- The state after `_handle_error` (discarding the written error file). -/
def handleErrorState (cfg : RConfig) (now productId : Nat) (errType : String) (s : RState) :
    RState :=
  (handle_error cfg now productId errType s).1

/-- `RaptorSuppliesScraper._check_ban_status`: while the ban flag is set and
the cooldown has not expired, report `false` (caller must not proceed); once
`cooldown_until ≤ now`, clear the flag, reset the counter and report `true`;
with no ban flag, report `true` unchanged. -/
def check_ban_status (now : Nat) (s : RState) : Bool × RState :=
  if s.banDetected then
    if now < s.cooldownUntil then (false, s)
    else (true, { s with banDetected := false, consecutiveErrors := 0 })
  else (true, s)

/-- The retry loop `for attempt in range(max_retries)` of
`RaptorSuppliesScraper.scrape_product`, recursing on the number of remaining
iterations (`remaining = max_retries - attempt`).  `env` gives the outcome of
each attempt, `tAt` the wall-clock time at which attempt `k` runs.  Returns
the value `scrape_product` returns, the final state, and the event trace. -/
def scrapeAttempts (cfg : RConfig) (env : Nat → ROutcome) (tAt : Nat → Nat) (pid : Nat) :
    Nat → Nat → RState → Option Nat × RState × List REvent
  | _, 0, s => (none, s, [])
  | attempt, r + 1, s =>
    let t := tAt attempt
    let reqEv := REvent.request t attempt s.banDetected s.cooldownUntil
    match env attempt with
    | ROutcome.http status parsed =>
      if status = 404 then
        -- 404 is not an error: reset the counter, return None
        (none, { s with consecutiveErrors := 0 }, [reqEv])
      else if status = 403 then
        let (s1, fev) := handle_error cfg t pid "HTTP_403" s
        if r = 0 then (none, s1, [reqEv, fev])
        else
          let (res, s2, evs) := scrapeAttempts cfg env tAt pid (attempt + 1) r s1
          (res, s2, reqEv :: fev :: REvent.sleep ((attempt + 1) * 30) :: evs)
      else if status ≠ 200 then
        let (s1, fev) := handle_error cfg t pid ("HTTP_" ++ toString status) s
        if r = 0 then (none, s1, [reqEv, fev])
        else
          let (res, s2, evs) := scrapeAttempts cfg env tAt pid (attempt + 1) r s1
          (res, s2, reqEv :: fev :: REvent.sleep ((attempt + 1) * 10) :: evs)
      else
        match parsed with
        | some d =>
          let s1 := { s with successfulScrapes := s.successfulScrapes + 1,
                             productsScraped := s.productsScraped + 1,
                             consecutiveErrors := 0,
                             lastProductId := pid }
          if s1.productsScraped % cfg.checkpointInterval = 0 then
            (some d, s1, [reqEv, REvent.checkpointUpdated pid, REvent.checkpointSaved])
          else
            (some d, s1, [reqEv, REvent.checkpointUpdated pid])
        | none =>
          -- parse returned None: `return product_data` returns None at once,
          -- with no error handling and no retry
          (none, s, [reqEv])
    | ROutcome.timeout =>
      let (s1, fev) := handle_error cfg t pid "TIMEOUT" s
      if r = 0 then (none, s1, [reqEv, fev])
      else
        let (res, s2, evs) := scrapeAttempts cfg env tAt pid (attempt + 1) r s1
        (res, s2, reqEv :: fev :: REvent.sleep ((attempt + 1) * 5) :: evs)
    | ROutcome.exn =>
      let (s1, fev) := handle_error cfg t pid "EXCEPTION" s
      if r = 0 then (none, s1, [reqEv, fev])
      else
        let (res, s2, evs) := scrapeAttempts cfg env tAt pid (attempt + 1) r s1
        (res, s2, reqEv :: fev :: REvent.sleep ((attempt + 1) * 5) :: evs)

/-- `RaptorSuppliesScraper.scrape_product`: check the ban status (sleeping 10s
and returning `None` when cooling down, before any request), apply the rate
limit, bump the session/request counters, then run the retry loop. -/
def scrape_product (cfg : RConfig) (env : Nat → ROutcome) (tCheck : Nat) (tAt : Nat → Nat)
    (pid : Nat) (s : RState) : Option Nat × RState × List REvent :=
  let (ok, s1) := check_ban_status tCheck s
  if ok then
    let s2 := { s1 with requestsInSession := s1.requestsInSession + 1,
                        totalRequests := s1.totalRequests + 1 }
    let (res, s3, evs) := scrapeAttempts cfg env tAt pid 0 cfg.maxRetries s2
    (res, s3, REvent.rateLimitDelay :: evs)
  else
    (none, s1, [REvent.sleep 10])

/-- Whether an event is a network request. -/
def isRequestEv (e : REvent) : Bool :=
  match e with
  | REvent.request _ _ _ _ => true
  | _ => false

/-- Whether an event is a Failure-Entry write (`_handle_error` error file). -/
def isFailureEv (e : REvent) : Bool :=
  match e with
  | REvent.failureRecorded _ _ _ => true
  | _ => false

/-- Whether an event is an in-memory checkpoint update. -/
def isCheckpointEv (e : REvent) : Bool :=
  match e with
  | REvent.checkpointUpdated _ => true
  | _ => false

/-- Number of network requests in a trace. -/
def countRequests (evs : List REvent) : Nat := evs.countP isRequestEv

/-- Number of Failure-Entry writes in a trace. -/
def countFailures (evs : List REvent) : Nat := evs.countP isFailureEv

/-- Number of checkpoint updates in a trace. -/
def countCheckpointUpdates (evs : List REvent) : Nat := evs.countP isCheckpointEv

/-! ## Session Lifecycle Manager (`RaptorSuppliesScraper._get_session`,
`_get_headers`) -/

/-- Configuration consulted by the session manager. -/
structure SessionConfig where
  requestsPerSession : Nat
  userAgents : List String
  baseHeaders : List (String × String)
  baseUrl : String
  deriving Repr, DecidableEq

/-- The headers `_get_headers` builds: a copy of the configured header dict,
`User-Agent` set to the randomly chosen user agent, and with probability 0.3 a
`Referer` header pointing at the base URL. -/
structure RHeaders where
  base : List (String × String)
  userAgent : String
  referer : Option String
  deriving Repr, DecidableEq

/-- A `requests.Session` object, identified by its headers. -/
structure RSession where
  headers : RHeaders
  deriving Repr, DecidableEq

/-- Session-manager state: the current session (if any) and
`requests_in_session`. -/
structure SessionState where
  session : Option RSession
  requestsInSession : Nat
  deriving Repr, DecidableEq

/-- `RaptorSuppliesScraper._get_headers`: the randomness of
`random.choice(user_agents)` and of `random.random() < 0.3` is made explicit
as the chosen index `uaChoice` and the coin `refCoin`. -/
def get_headers (cfg : SessionConfig) (uaChoice : Nat) (refCoin : Bool) : RHeaders :=
  { base := cfg.baseHeaders
    userAgent := cfg.userAgents.getD uaChoice ""
    referer := if refCoin then some cfg.baseUrl else none }

/-- `RaptorSuppliesScraper._get_session`: when no session exists or
`requests_in_session >= requests_per_session`, close the old session (the
returned `Bool` records whether an old session was closed), build a fresh one
with newly randomized headers and reset the counter to 0; otherwise return the
current session with the state unchanged. -/
def get_session (cfg : SessionConfig) (uaChoice : Nat) (refCoin : Bool) (st : SessionState) :
    RSession × SessionState × Bool :=
  match st.session with
  | none =>
    let sess : RSession := { headers := get_headers cfg uaChoice refCoin }
    (sess, { session := some sess, requestsInSession := 0 }, false)
  | some old =>
    if cfg.requestsPerSession ≤ st.requestsInSession then
      let sess : RSession := { headers := get_headers cfg uaChoice refCoin }
      (sess, { session := some sess, requestsInSession := 0 }, true)
    else
      (old, st, false)

/-! ## Identity Pool and `URLFileScraper.scrape_product`
(`url_file_scraper_webshare.py`) -/

/-- `WebshareProxyManager` rotation state: the fetched proxy list (each proxy
named by its address) and the round-robin cursor. -/
structure ProxyState where
  proxies : List String
  proxyIndex : Nat
  deriving Repr, DecidableEq

/-- `WebshareProxyManager.get_next_proxy`: `None` on an empty pool; otherwise
`proxies[proxy_index % len(proxies)]`, advancing the cursor. -/
def get_next_proxy (s : ProxyState) : Option String × ProxyState :=
  if s.proxies = [] then (none, s)
  else (some (s.proxies.getD (s.proxyIndex % s.proxies.length) ""),
        { s with proxyIndex := s.proxyIndex + 1 })

/-- Outcome of the single request `URLFileScraper.scrape_product` issues: an
HTTP response carrying the record `extract_product_data` would build from its
body, or a raised exception (timeout, connection error, ...) with message
`msg`. -/
inductive UOutcome where
  | http (status : Nat) (rec : UProduct)
  | exn (msg : String)
  deriving Repr, DecidableEq

/-- Observable events of one `URLFileScraper.scrape_product` call. -/
inductive UEvent where
  | request (proxy : Option String)
  | savedFailed (url msg : String)
  | savedCheckpoint (url : String)
  deriving Repr, DecidableEq

/-- State touched by `URLFileScraper.scrape_product`: the proxy manager (if
any), the persisted checkpoint dict, the failed-URLs dict, and the counters. -/
structure UState where
  proxyMgr : Option ProxyState
  checkpointData : List (String × UProduct)
  failedUrls : List (String × String)
  success : Nat
  failed : Nat
  rateLimited : Nat
  deriving Repr, DecidableEq

/-- `URLFileScraper.save_failed`: `failed_urls[url] = {error, timestamp}` and
flush to disk. -/
def save_failed (s : UState) (url msg : String) : UState :=
  { s with failedUrls := dictInsert s.failedUrls url msg }

/-- `URLFileScraper.scrape_product`: draw a proxy from the manager (if
configured), issue the request, then: 429 → count rate-limited and return
`None`; 404 → `save_failed(url, "HTTP 404 - Product not found")` and return
`None`; other 4xx/5xx → `raise_for_status` raises into the except branch
(count failed, `save_failed`); otherwise extract the record, count success,
`save_checkpoint` it and return it.  A raised exception from the request
itself likewise lands in the except branch. -/
def u_scrape_product (s : UState) (url : String) (out : UOutcome) :
    Option UProduct × UState × List UEvent :=
  let acquired : Option String × UState :=
    match s.proxyMgr with
    | some pm =>
      let (p, pm1) := get_next_proxy pm
      (p, { s with proxyMgr := some pm1 })
    | none => (none, s)
  let proxyOpt := acquired.1
  let s0 := acquired.2
  let reqEv := UEvent.request proxyOpt
  match out with
  | UOutcome.exn msg =>
    let s1 := save_failed { s0 with failed := s0.failed + 1 } url msg
    (none, s1, [reqEv, UEvent.savedFailed url msg])
  | UOutcome.http status rec =>
    if status = 429 then
      (none, { s0 with rateLimited := s0.rateLimited + 1 }, [reqEv])
    else if status = 404 then
      let msg := "HTTP 404 - Product not found"
      (none, save_failed s0 url msg, [reqEv, UEvent.savedFailed url msg])
    else if 400 ≤ status ∧ status < 600 then
      -- raise_for_status() raises HTTPError, caught by the except branch
      let msg := "HTTP " ++ toString status
      let s1 := save_failed { s0 with failed := s0.failed + 1 } url msg
      (none, s1, [reqEv, UEvent.savedFailed url msg])
    else
      let product := { rec with url := url }
      (some product,
       { s0 with success := s0.success + 1,
                 checkpointData := save_checkpoint s0.checkpointData product },
       [reqEv, UEvent.savedCheckpoint url])

/-- Concrete configuration for the C3 witness (threshold 5, cooldown 300s). -/
def cfgC3w : RConfig := { checkAfterErrors := 5, cooldownPeriod := 300, maxRetries := 3,
                          checkpointInterval := 10 }

/-- Engine state reached after five consecutive Blocked outcomes at times
10..50, used by the C3 witness. -/
def sC3w : RState :=
  handleErrorState cfgC3w 50 1 "HTTP_403"
    (handleErrorState cfgC3w 40 1 "HTTP_403"
      (handleErrorState cfgC3w 30 1 "HTTP_403"
        (handleErrorState cfgC3w 20 1 "HTTP_403"
          (handleErrorState cfgC3w 10 1 "HTTP_403" {}))))

/-- Concrete configuration for the C3 counterexample (threshold 5, cooldown
300s, six retries). -/
def cfgC3x : RConfig := { checkAfterErrors := 5, cooldownPeriod := 300, maxRetries := 6,
                          checkpointInterval := 10 }

/-- Concrete configuration for the C4 witness (three retries). -/
def cfgC4w : RConfig :=
  { checkAfterErrors := 5, cooldownPeriod := 300, maxRetries := 3, checkpointInterval := 10 }

/-- Concrete configuration for the C6 witness. -/
def cfgC6w : RConfig := { checkAfterErrors := 5, cooldownPeriod := 300, maxRetries := 3,
                          checkpointInterval := 10 }

/-- Concrete `URLFileScraper` state for the C6 witness. -/
def usC6w : UState := { proxyMgr := none, checkpointData := [], failedUrls := [],
                        success := 0, failed := 0, rateLimited := 0 }

/-- Concrete extracted record for the C6 witness. -/
def recC6w : UProduct := { url := "", name := "", sku := "", brand := "", price := "" }

/-- Concrete configuration for the C6 counterexample. -/
def cfgC6x : RConfig := { checkAfterErrors := 5, cooldownPeriod := 300, maxRetries := 3,
                          checkpointInterval := 10 }

/-- Concrete `URLFileScraper` state for the C6 counterexample. -/
def usC6x : UState := { proxyMgr := none, checkpointData := [], failedUrls := [],
                        success := 0, failed := 0, rateLimited := 0 }

/-- Concrete extracted record for the C6 counterexample. -/
def recC6x : UProduct := { url := "", name := "", sku := "", brand := "", price := "" }

/-- Concrete configuration for the C7 witness. -/
def cfgC7w : RConfig := { checkAfterErrors := 5, cooldownPeriod := 300, maxRetries := 2,
                          checkpointInterval := 10 }

/-- Concrete configuration for the C7 counterexample. -/
def cfgC7x : RConfig := { checkAfterErrors := 5, cooldownPeriod := 300, maxRetries := 2,
                          checkpointInterval := 10 }

/-- Concrete configuration for the C8 witness. -/
def cfgC8w : RConfig := { checkAfterErrors := 5, cooldownPeriod := 300, maxRetries := 3,
                          checkpointInterval := 10 }

/-- Concrete `URLFileScraper` state for the C8 witness. -/
def usC8w : UState := { proxyMgr := none, checkpointData := [], failedUrls := [],
                        success := 0, failed := 0, rateLimited := 0 }

/-- Concrete extracted record for the C8 witness (name field present). -/
def recC8w : UProduct := { url := "", name := "Widget", sku := "W-1", brand := "B",
                           price := "9.99" }

/-- Concrete configuration for the C8 counterexample (three retries). -/
def cfgC8x : RConfig := { checkAfterErrors := 5, cooldownPeriod := 300, maxRetries := 3,
                          checkpointInterval := 10 }

/-- Concrete `URLFileScraper` state for the C8 counterexample. -/
def usC8x : UState := { proxyMgr := none, checkpointData := [], failedUrls := [],
                        success := 0, failed := 0, rateLimited := 0 }

/-- Concrete extracted record for the C8 counterexample (name field absent). -/
def recC8x : UProduct := { url := "", name := "", sku := "", brand := "", price := "" }

/-- Concrete session configuration for the C9 witness (limit 50, two user
agents). -/
def cfgC9w : SessionConfig := { requestsPerSession := 50, userAgents := ["UA-1", "UA-2"],
                                baseHeaders := [("Accept", "text/html")],
                                baseUrl := "https://www.raptorsupplies.com" }

/-- The current session for the C9 witness. -/
def oldC9w : RSession := { headers := { base := [], userAgent := "UA-1", referer := none } }

/-- Session state at the request limit, for the C9 witness. -/
def stC9w : SessionState := { session := some oldC9w, requestsInSession := 50 }

/-- Session state below the request limit, for the C9 witness. -/
def stC9w2 : SessionState := { session := some oldC9w, requestsInSession := 7 }

/-- An empty identity pool for the C10 witness. -/
def pmC10w : ProxyState := { proxies := [], proxyIndex := 0 }

/-- Concrete `URLFileScraper` state with an empty identity pool, for the C10
witness. -/
def usC10w : UState := { proxyMgr := some pmC10w, checkpointData := [], failedUrls := [],
                         success := 0, failed := 0, rateLimited := 0 }

/-- Concrete extracted record for the C10 witness. -/
def recC10w : UProduct := { url := "", name := "N", sku := "", brand := "", price := "" }

/-! ## Supporting lemmas -/

/-- Summing, over all workers, the multiplicity of `a` in the interleaved
shard of worker `w` gives the multiplicity of `a` in the underlying list:
every position lands in exactly one worker's shard. -/
lemma sum_count_modShards (W : Nat) (hW : 0 < W) (a : String) :
    ∀ (l : List String) (n : Nat),
      (∑ w ∈ Finset.range W,
        (((List.enumFrom n l).filter (fun p => p.1 % W == w)).map Prod.snd).count a)
        = l.count a := by
  intro l
  induction l with
  | nil => intro n; simp
  | cons x xs ih =>
    intro n
    have hstep : ∀ w,
        (((List.enumFrom n (x :: xs)).filter (fun p => p.1 % W == w)).map Prod.snd).count a
          = (if n % W = w then (if x = a then 1 else 0) else 0)
            + (((List.enumFrom (n + 1) xs).filter (fun p => p.1 % W == w)).map Prod.snd).count a := by
      intro w
      by_cases h : n % W = w
      · simp [List.enumFrom, List.filter_cons, h, List.count_cons]
        omega
      · simp [List.enumFrom, List.filter_cons, h]
    rw [Finset.sum_congr rfl (fun w _ => hstep w), Finset.sum_add_distrib, ih (n + 1),
      Finset.sum_ite_eq]
    simp [Finset.mem_range.mpr (Nat.mod_lt n hW), List.count_cons]
    omega

/-- Unfolding `assignBatch` through `List.enumFrom`. -/
lemma assignBatch_eq (urls : List String) (si t w W : Nat) :
    assignBatch urls si t w W
      = ((List.enumFrom 0 ((urls.drop si).take t)).filter
          (fun p => p.1 % W == w)).map Prod.snd := rfl

/-- Completeness of the interleaved policy: the shards of workers
`0 .. W-1` together contain each element of the truncated slice exactly as
often as the slice itself does. -/
lemma assignBatch_count (urls : List String) (si t W : Nat) (hW : 0 < W) (a : String) :
    (∑ w ∈ Finset.range W, (assignBatch urls si t w W).count a)
      = ((urls.drop si).take t).count a := by
  simp only [assignBatch_eq]
  exact sum_count_modShards W hW a ((urls.drop si).take t) 0

/-- Each interleaved shard is order-preserving: a sublist of the input. -/
lemma assignBatch_sublist (urls : List String) (si t w W : Nat) :
    (assignBatch urls si t w W).Sublist urls := by
  rw [assignBatch_eq]
  have h1 : (((List.enumFrom 0 ((urls.drop si).take t)).filter
      (fun p => p.1 % W == w)).map Prod.snd).Sublist
      ((List.enumFrom 0 ((urls.drop si).take t)).map Prod.snd) :=
    (List.filter_sublist _).map Prod.snd
  rw [List.enumFrom_map_snd] at h1
  exact h1.trans (((urls.drop si).take_sublist t).trans (urls.drop_sublist si))

/-- Pairwise disjointness of interleaved shards on duplicate-free input. -/
lemma assignBatch_disjoint (urls : List String) (si t W : Nat) (hnd : urls.Nodup)
    (w1 w2 : Nat) (h1 : w1 < W) (h2 : w2 < W) (hne : w1 ≠ w2) (a : String)
    (ha1 : a ∈ assignBatch urls si t w1 W) : a ∉ assignBatch urls si t w2 W := by
  intro ha2
  have hW : 0 < W := Nat.lt_of_le_of_lt (Nat.zero_le w1) h1
  have hc1 : 0 < (assignBatch urls si t w1 W).count a := List.count_pos_iff.mpr ha1
  have hc2 : 0 < (assignBatch urls si t w2 W).count a := List.count_pos_iff.mpr ha2
  have hsub : ({w1, w2} : Finset Nat) ⊆ Finset.range W := by
    intro x hx
    rcases Finset.mem_insert.mp hx with h | h
    · exact Finset.mem_range.mpr (h ▸ h1)
    · exact Finset.mem_range.mpr ((Finset.mem_singleton.mp h) ▸ h2)
  have hge : 2 ≤ ∑ w ∈ Finset.range W, (assignBatch urls si t w W).count a := by
    have hpair : (assignBatch urls si t w1 W).count a + (assignBatch urls si t w2 W).count a
        ≤ ∑ w ∈ Finset.range W, (assignBatch urls si t w W).count a :=
      calc (assignBatch urls si t w1 W).count a + (assignBatch urls si t w2 W).count a
          = ∑ w ∈ ({w1, w2} : Finset Nat), (assignBatch urls si t w W).count a :=
            (Finset.sum_pair (f := fun w => (assignBatch urls si t w W).count a) hne).symm
        _ ≤ ∑ w ∈ Finset.range W, (assignBatch urls si t w W).count a :=
            Finset.sum_le_sum_of_subset hsub
    omega
  have hle : ((urls.drop si).take t).count a ≤ 1 := by
    have hnd2 : ((urls.drop si).take t).Nodup :=
      hnd.sublist (((urls.drop si).take_sublist t).trans (urls.drop_sublist si))
    exact List.nodup_iff_count_le_one.mp hnd2 a
  rw [assignBatch_count urls si t W hW a] at hge
  omega

/-- Completeness of the contiguous policy: concatenating the batches of
workers `0 .. W-1` in order reproduces the input truncated to `W * size`
elements. -/
lemma generateUrls_flatten (urls : List String) (size : Nat) :
    ∀ W, ((List.range W).map (fun i => generateUrls urls i size)).flatten
      = urls.take (W * size) := by
  intro W
  induction W with
  | zero => simp
  | succ W ih =>
    rw [List.range_succ, List.map_append, List.flatten_append]
    simp only [List.map_cons, List.map_nil, List.flatten_cons, List.flatten_nil, ih,
      List.append_nil]
    rw [Nat.succ_mul, List.take_add]
    rfl

/-- Disjointness of contiguous batches, ordered case. -/
lemma generateUrls_disjoint_lt (urls : List String) (size : Nat) (hnd : urls.Nodup)
    (i j : Nat) (hij : i < j) (a : String)
    (ha1 : a ∈ generateUrls urls i size) : a ∉ generateUrls urls j size := by
  intro ha2
  have hmem1 : a ∈ urls.take ((i + 1) * size) := by
    rw [Nat.succ_mul, List.take_add, List.mem_append]
    right
    exact ha1
  have hmem2 : a ∈ urls.drop (j * size) := List.take_subset _ _ ha2
  have hle : (i + 1) * size ≤ j * size := Nat.mul_le_mul_right size hij
  exact (List.disjoint_take_drop hnd hle) hmem1 hmem2

/-- Pairwise disjointness of contiguous batches on duplicate-free input. -/
lemma generateUrls_disjoint (urls : List String) (size : Nat) (hnd : urls.Nodup)
    (i j : Nat) (hne : i ≠ j) (a : String)
    (ha1 : a ∈ generateUrls urls i size) : a ∉ generateUrls urls j size := by
  rcases Nat.lt_or_ge i j with h | h
  · exact generateUrls_disjoint_lt urls size hnd i j h a ha1
  · intro ha2
    have hji : j < i := Nat.lt_of_le_of_ne h (fun hh => hne hh.symm)
    exact generateUrls_disjoint_lt urls size hnd j i hji a ha2 ha1

/-- After `data[k] = v`, `k` is among the dict's keys. -/
lemma mem_keys_dictInsert {β : Type} (d : List (String × β)) (k : String) (v : β) :
    k ∈ (dictInsert d k v).map Prod.fst := by
  unfold dictInsert
  by_cases h : d.any (fun p => p.1 == k) = true
  · rw [if_pos h]
    rcases List.any_eq_true.mp h with ⟨p, hp, hpk⟩
    exact List.mem_map.mpr ⟨(k, v), List.mem_map.mpr ⟨p, hp, by simp [hpk]⟩, rfl⟩
  · rw [if_neg h]
    simp

/-- `load_urls_from_file` never emits a URL from the completed set. -/
lemma not_mem_load_urls_of_completed (lines completed : List String) (u : String)
    (hu : u ∈ completed) : u ∉ load_urls_from_file lines completed := by
  intro hmem
  unfold load_urls_from_file at hmem
  rcases List.mem_filterMap.mp hmem with ⟨line, _, hline⟩
  simp only at hline
  split at hline
  · next hcond =>
    cases hline
    exact hcond.2 hu
  · exact Option.noConfusion hline

/-- Splitting `_handle_error` into its state effect and the error-file event it
writes. -/
lemma handle_error_eq (cfg : RConfig) (now pid : Nat) (ty : String) (s : RState) :
    handle_error cfg now pid ty s
      = (handleErrorState cfg now pid ty s, REvent.failureRecorded ty pid now) := by
  unfold handleErrorState handle_error
  by_cases h : cfg.checkAfterErrors <= s.consecutiveErrors + 1 <;> simp [h]

/-- With the ban flag clear, `scrape_product` passes the ban check, applies the
rate limit, bumps the counters and runs the retry loop. -/
lemma scrape_product_not_banned (cfg : RConfig) (env : Nat → ROutcome) (tCheck : Nat)
    (tAt : Nat → Nat) (pid : Nat) (s : RState) (hb : s.banDetected = false) :
    scrape_product cfg env tCheck tAt pid s
      = ((scrapeAttempts cfg env tAt pid 0 cfg.maxRetries
            { s with requestsInSession := s.requestsInSession + 1,
                     totalRequests := s.totalRequests + 1 }).1,
         (scrapeAttempts cfg env tAt pid 0 cfg.maxRetries
            { s with requestsInSession := s.requestsInSession + 1,
                     totalRequests := s.totalRequests + 1 }).2.1,
         REvent.rateLimitDelay ::
           (scrapeAttempts cfg env tAt pid 0 cfg.maxRetries
            { s with requestsInSession := s.requestsInSession + 1,
                     totalRequests := s.totalRequests + 1 }).2.2) := by
  simp [scrape_product, check_ban_status, hb]

/-- When every attempt times out, the retry loop returns `none` and issues
exactly `remaining` requests and exactly `remaining` Failure-Entry writes. -/
lemma scrapeAttempts_timeout (cfg : RConfig) (env : Nat → ROutcome) (tAt : Nat → Nat)
    (pid : Nat) (henv : ∀ k, env k = ROutcome.timeout) :
    ∀ (r attempt : Nat) (s : RState),
      (scrapeAttempts cfg env tAt pid attempt r s).1 = none
      ∧ countRequests (scrapeAttempts cfg env tAt pid attempt r s).2.2 = r
      ∧ countFailures (scrapeAttempts cfg env tAt pid attempt r s).2.2 = r := by
  intro r
  induction r with
  | zero =>
    intro attempt s
    simp [scrapeAttempts, countRequests, countFailures]
  | succ r ih =>
    intro attempt s
    rcases Nat.eq_zero_or_pos r with hr | hr
    · subst hr
      simp [scrapeAttempts, henv attempt, handle_error_eq, countRequests, countFailures,
        List.countP_cons, isRequestEv, isFailureEv]
    · have hr0 : ¬ r = 0 := Nat.pos_iff_ne_zero.mp hr
      have h2 := ih (attempt + 1) (handleErrorState cfg (tAt attempt) pid "TIMEOUT" s)
      simp only [countRequests, countFailures] at h2 ⊢
      simp only [scrapeAttempts, henv attempt, handle_error_eq, hr0, if_false]
      refine ⟨h2.1, ?_, ?_⟩ <;>
        simp [List.countP_cons, isRequestEv, isFailureEv, h2.2.1, h2.2.2]

/-! ## The claims -/

/-- C1: for every identifier list, every `workerCount ≥ 1` and every
processing limit, the shards assigned to workers `0 .. workerCount-1` by
either policy are pairwise disjoint (on duplicate-free identifiers) and their
union is the possibly-truncated input list with each element exactly once
(stated as equality of multiplicities), each shard order-preserving; in
particular for `[a,b,c,d]` with two interleaved workers, worker 0 gets
`[a,c]` and worker 1 gets `[b,d]`.  Determinism is immediate: both policies
are pure functions of their arguments. -/
theorem claimC1_partition (urls : List String) (si t W : Nat) (hW : 0 < W) :
    (∀ a : String, (∑ w ∈ Finset.range W, (assignBatch urls si t w W).count a)
        = ((urls.drop si).take t).count a)
    ∧ (urls.Nodup → ∀ w1 w2, w1 < W → w2 < W → w1 ≠ w2 →
        ∀ a : String, a ∈ assignBatch urls si t w1 W → a ∉ assignBatch urls si t w2 W)
    ∧ (∀ w, (assignBatch urls si t w W).Sublist urls)
    ∧ (∀ size, ((List.range W).map (fun i => generateUrls urls i size)).flatten
        = urls.take (W * size))
    ∧ (urls.Nodup → ∀ size i j, i ≠ j →
        ∀ a : String, a ∈ generateUrls urls i size → a ∉ generateUrls urls j size)
    ∧ (assignBatch ["a", "b", "c", "d"] 0 4 0 2 = ["a", "c"]
        ∧ assignBatch ["a", "b", "c", "d"] 0 4 1 2 = ["b", "d"]) :=
  ⟨fun a => assignBatch_count urls si t W hW a,
   fun hnd w1 w2 h1 h2 hne a => assignBatch_disjoint urls si t W hnd w1 w2 h1 h2 hne a,
   fun w => assignBatch_sublist urls si t w W,
   fun size => generateUrls_flatten urls size W,
   fun hnd size i j hne a => generateUrls_disjoint urls size hnd i j hne a,
   by decide, by decide⟩

/-- Witness for C1: the hypotheses are satisfiable at the spec scenario
(`[a,b,c,d]`, two workers) and there the theorem yields the stated shards. -/
theorem claimC1_partition_witness :
    assignBatch ["a", "b", "c", "d"] 0 4 0 2 = ["a", "c"]
    ∧ assignBatch ["a", "b", "c", "d"] 0 4 1 2 = ["b", "d"] :=
  (claimC1_partition ["a", "b", "c", "d"] 0 4 2 (by decide)).2.2.2.2.2

/-- C2: once `save_checkpoint` has persisted a product, a fresh
`load_checkpoint` over the resulting persisted state contains the product's
URL, and `load_urls_from_file` over that completed set excludes the URL from
the next run's work list. -/
theorem claimC2_checkpoint_durable (data : List (String × UProduct)) (product : UProduct)
    (lines : List String) :
    product.url ∈ load_checkpoint (some (Except.ok (save_checkpoint data product)))
    ∧ product.url ∉ load_urls_from_file lines
        (load_checkpoint (some (Except.ok (save_checkpoint data product)))) := by
  have hmem : product.url ∈ load_checkpoint (some (Except.ok (save_checkpoint data product))) :=
    mem_keys_dictInsert data product.url product
  exact ⟨hmem, not_mem_load_urls_of_completed lines _ product.url hmem⟩

/-- C3 (amended): starting from `NORMAL` with consecutive-failure counter 0 and
threshold 5, five consecutive Blocked outcomes (each running
`_handle_error`) transition the engine to `COOLDOWN` with `cooldownExpiry =
now5 + cooldownDuration`; a new `scrape_product` invocation while the
cooldown has not expired is refused with no network request (the amendment:
retry attempts inside an invocation already in progress do not re-check the
ban state, see the counterexample); and once `now >= cooldownExpiry` the
ban-status check returns to `NORMAL` with the counter reset to 0. -/
theorem claimC3_ban_detection (cfg : RConfig) (env : Nat → ROutcome) (tAt : Nat → Nat)
    (pid : Nat) (s : RState) (t1 t2 t3 t4 t5 tDuring tAfter : Nat)
    (hth : cfg.checkAfterErrors = 5)
    (hc : s.consecutiveErrors = 0) (hb : s.banDetected = false)
    (hduring : tDuring < t5 + cfg.cooldownPeriod)
    (hafter : t5 + cfg.cooldownPeriod ≤ tAfter) :
    (handleErrorState cfg t5 pid "HTTP_403"
      (handleErrorState cfg t4 pid "HTTP_403"
        (handleErrorState cfg t3 pid "HTTP_403"
          (handleErrorState cfg t2 pid "HTTP_403"
            (handleErrorState cfg t1 pid "HTTP_403" s))))).banDetected = true
    ∧ (handleErrorState cfg t5 pid "HTTP_403"
        (handleErrorState cfg t4 pid "HTTP_403"
          (handleErrorState cfg t3 pid "HTTP_403"
            (handleErrorState cfg t2 pid "HTTP_403"
              (handleErrorState cfg t1 pid "HTTP_403" s))))).consecutiveErrors = 5
    ∧ (handleErrorState cfg t5 pid "HTTP_403"
        (handleErrorState cfg t4 pid "HTTP_403"
          (handleErrorState cfg t3 pid "HTTP_403"
            (handleErrorState cfg t2 pid "HTTP_403"
              (handleErrorState cfg t1 pid "HTTP_403" s))))).cooldownUntil
        = t5 + cfg.cooldownPeriod
    ∧ scrape_product cfg env tDuring tAt pid
        (handleErrorState cfg t5 pid "HTTP_403"
          (handleErrorState cfg t4 pid "HTTP_403"
            (handleErrorState cfg t3 pid "HTTP_403"
              (handleErrorState cfg t2 pid "HTTP_403"
                (handleErrorState cfg t1 pid "HTTP_403" s)))))
        = (none,
           handleErrorState cfg t5 pid "HTTP_403"
             (handleErrorState cfg t4 pid "HTTP_403"
               (handleErrorState cfg t3 pid "HTTP_403"
                 (handleErrorState cfg t2 pid "HTTP_403"
                   (handleErrorState cfg t1 pid "HTTP_403" s)))),
           [REvent.sleep 10])
    ∧ check_ban_status tAfter
        (handleErrorState cfg t5 pid "HTTP_403"
          (handleErrorState cfg t4 pid "HTTP_403"
            (handleErrorState cfg t3 pid "HTTP_403"
              (handleErrorState cfg t2 pid "HTTP_403"
                (handleErrorState cfg t1 pid "HTTP_403" s)))))
        = (true,
           { handleErrorState cfg t5 pid "HTTP_403"
               (handleErrorState cfg t4 pid "HTTP_403"
                 (handleErrorState cfg t3 pid "HTTP_403"
                   (handleErrorState cfg t2 pid "HTTP_403"
                     (handleErrorState cfg t1 pid "HTTP_403" s))))
             with banDetected := false, consecutiveErrors := 0 }) := by
  obtain ⟨ce, bd, cu, ris, tr, fs, ss, ps, bdt, lp⟩ := s
  simp only at hc hb
  subst hc hb
  have h1 : handleErrorState cfg t1 pid "HTTP_403"
      ⟨0, false, cu, ris, tr, fs, ss, ps, bdt, lp⟩
      = ⟨1, false, cu, ris, tr, fs + 1, ss, ps, bdt, lp⟩ := by
    simp [handleErrorState, handle_error, hth]
  have h2 : handleErrorState cfg t2 pid "HTTP_403"
      ⟨1, false, cu, ris, tr, fs + 1, ss, ps, bdt, lp⟩
      = ⟨2, false, cu, ris, tr, fs + 2, ss, ps, bdt, lp⟩ := by
    simp [handleErrorState, handle_error, hth]
  have h3 : handleErrorState cfg t3 pid "HTTP_403"
      ⟨2, false, cu, ris, tr, fs + 2, ss, ps, bdt, lp⟩
      = ⟨3, false, cu, ris, tr, fs + 3, ss, ps, bdt, lp⟩ := by
    simp [handleErrorState, handle_error, hth]
  have h4 : handleErrorState cfg t4 pid "HTTP_403"
      ⟨3, false, cu, ris, tr, fs + 3, ss, ps, bdt, lp⟩
      = ⟨4, false, cu, ris, tr, fs + 4, ss, ps, bdt, lp⟩ := by
    simp [handleErrorState, handle_error, hth]
  have h5 : handleErrorState cfg t5 pid "HTTP_403"
      ⟨4, false, cu, ris, tr, fs + 4, ss, ps, bdt, lp⟩
      = ⟨5, true, t5 + cfg.cooldownPeriod, ris, tr, fs + 5, ss, ps, bdt + 1, lp⟩ := by
    simp [handleErrorState, handle_error, hth]
  rw [h1, h2, h3, h4, h5]
  refine ⟨rfl, rfl, rfl, ?_, ?_⟩
  · simp [scrape_product, check_ban_status, hduring]
  · simp [check_ban_status, Nat.not_lt.mpr hafter]

/-- Witness for C3: the hypotheses hold at a concrete configuration, five
blocked outcomes at times 10..50, a refused call at time 100 and a recovery
check at time 350. -/
theorem claimC3_ban_detection_witness :
    sC3w.banDetected = true ∧ sC3w.consecutiveErrors = 5
    ∧ sC3w.cooldownUntil = 50 + cfgC3w.cooldownPeriod
    ∧ scrape_product cfgC3w (fun _ => ROutcome.timeout) 100 (fun k => k) 1 sC3w
        = (none, sC3w, [REvent.sleep 10])
    ∧ check_ban_status 350 sC3w
        = (true, { sC3w with banDetected := false, consecutiveErrors := 0 }) :=
  claimC3_ban_detection cfgC3w (fun _ => ROutcome.timeout) (fun k => k) 1 {}
    10 20 30 40 50 100 350 rfl rfl rfl (by decide) (by decide)

/-- C3 counterexample: with threshold 5, cooldown 300 and `max_retries = 6`, a
single `scrape_product` call whose six attempts all return HTTP 403 issues
its sixth request (`REvent.request 100 5 true 400`) at time 100 while the
ban flag is set and the cooldown expiry is 400 — an attempt during unexpired
`COOLDOWN` that is not refused, contradicting the claim as stated. -/
theorem claimC3_counterexample :
    REvent.request 100 5 true 400 ∈
      (scrape_product cfgC3x (fun _ => ROutcome.http 403 none) 0 (fun _ => 100) 1 {}).2.2
    ∧ (100 : Nat) < 400 :=
  ⟨by decide, by decide⟩

/-- C4: for an identifier whose every attempt yields a Timeout outcome,
`scrape_product` (entered outside a cooldown) issues exactly `maxRetries`
requests — never a `(maxRetries+1)`-th — records a Failure Entry on each
failed attempt (so at least one is written), and returns `none` (recorded as
failed, not silently dropped). -/
theorem claimC4_retry_exhaustion (cfg : RConfig) (env : Nat → ROutcome) (tCheck : Nat)
    (tAt : Nat → Nat) (pid : Nat) (s : RState)
    (henv : ∀ k, env k = ROutcome.timeout) (hb : s.banDetected = false)
    (hm : 1 ≤ cfg.maxRetries) :
    (scrape_product cfg env tCheck tAt pid s).1 = none
    ∧ countRequests (scrape_product cfg env tCheck tAt pid s).2.2 = cfg.maxRetries
    ∧ countFailures (scrape_product cfg env tCheck tAt pid s).2.2 = cfg.maxRetries
    ∧ 1 ≤ countFailures (scrape_product cfg env tCheck tAt pid s).2.2 := by
  rw [scrape_product_not_banned cfg env tCheck tAt pid s hb]
  have h := scrapeAttempts_timeout cfg env tAt pid henv cfg.maxRetries 0
    { s with requestsInSession := s.requestsInSession + 1,
             totalRequests := s.totalRequests + 1 }
  refine ⟨h.1, ?_, ?_, ?_⟩
  all_goals simp only [countRequests, countFailures, List.countP_cons, isRequestEv, isFailureEv] at h ⊢
  all_goals simp [h.2.1, h.2.2]
  all_goals omega

/-- Witness for C4: with three retries and an always-timeout transport, exactly
three requests and three failure records are produced. -/
theorem claimC4_retry_exhaustion_witness :
    (scrape_product cfgC4w (fun _ => ROutcome.timeout) 0 (fun k => k) 1 {}).1 = none
    ∧ countRequests (scrape_product cfgC4w (fun _ => ROutcome.timeout) 0 (fun k => k) 1 {}).2.2
        = cfgC4w.maxRetries
    ∧ countFailures (scrape_product cfgC4w (fun _ => ROutcome.timeout) 0 (fun k => k) 1 {}).2.2
        = cfgC4w.maxRetries
    ∧ 1 ≤ countFailures (scrape_product cfgC4w (fun _ => ROutcome.timeout) 0 (fun k => k) 1 {}).2.2 :=
  claimC4_retry_exhaustion cfgC4w (fun _ => ROutcome.timeout) 0 (fun k => k) 1 {}
    (fun _ => rfl) rfl (by decide)

/-- C5 counterexample: with a persisted checkpoint that exists but cannot be
parsed, `URLFileScraper.load_checkpoint` catches the exception and returns the
empty completed set — the claim demands that `load()` fail fatally and never
auto-recover with an empty completed set, but here the subsequent run simply
treats every URL as still to do (shown on a one-line work list). -/
theorem claimC5_counterexample :
    load_checkpoint (some (Except.error "Expecting value: line 1 column 1 (char 0)")) = []
    ∧ load_urls_from_file ["https://x/p1"]
        (load_checkpoint (some (Except.error "Expecting value: line 1 column 1 (char 0)")))
        = ["https://x/p1"] :=
  ⟨rfl, by decide⟩

/-- C5 (amended): a corrupt persisted checkpoint is fatal for
`RaptorSuppliesScraper._load_checkpoint` (the parse error propagates out of
`__init__`), but `URLFileScraper.load_checkpoint` catches the error and
auto-recovers by continuing with an empty completed set. -/
theorem claimC5_corrupt_state (e : String) :
    raptor_load_checkpoint (some (Except.error e)) = Except.error e
    ∧ load_checkpoint (some (Except.error e)) = [] :=
  ⟨rfl, rfl⟩

/-- C6 counterexample: a 404 arriving with the consecutive-failure counter at 2
leaves the counter at 0 — reset, not "left unchanged" — and
`URLFileScraper.scrape_product` writes a Failure entry ("HTTP 404 - Product
not found") on 404, contradicting "no Failure entry written". -/
theorem claimC6_counterexample :
    (scrape_product cfgC6x (fun _ => ROutcome.http 404 none) 0 (fun _ => 0) 7
        { consecutiveErrors := 2 }).2.1.consecutiveErrors = 0
    ∧ (0 : Nat) ≠ 2
    ∧ (u_scrape_product usC6x "u" (UOutcome.http 404 recC6x)).2.2
        = [UEvent.request none, UEvent.savedFailed "u" "HTTP 404 - Product not found"] :=
  ⟨by decide, by decide, by decide⟩

/-- C6 (amended): an item whose request returns HTTP 404 terminates as skipped
(`none`) after a single request with no Checkpoint entry; in
`RaptorSuppliesScraper` no Failure entry is written and the consecutive-
failure counter is reset to 0 (not left unchanged); in `URLFileScraper` a
Failure entry "HTTP 404 - Product not found" is written and the checkpoint
is untouched. -/
theorem claimC6_not_found (cfg : RConfig) (env : Nat → ROutcome) (tCheck : Nat) (tAt : Nat → Nat)
    (pid : Nat) (s : RState) (parsed : Option Nat) (us : UState) (url : String) (rec : UProduct)
    (hb : s.banDetected = false) (henv : env 0 = ROutcome.http 404 parsed)
    (hm : 1 ≤ cfg.maxRetries) :
    (scrape_product cfg env tCheck tAt pid s).1 = none
    ∧ (scrape_product cfg env tCheck tAt pid s).2.1.consecutiveErrors = 0
    ∧ countFailures (scrape_product cfg env tCheck tAt pid s).2.2 = 0
    ∧ countCheckpointUpdates (scrape_product cfg env tCheck tAt pid s).2.2 = 0
    ∧ countRequests (scrape_product cfg env tCheck tAt pid s).2.2 = 1
    ∧ (u_scrape_product us url (UOutcome.http 404 rec)).1 = none
    ∧ (u_scrape_product us url (UOutcome.http 404 rec)).2.1.failedUrls
        = dictInsert us.failedUrls url "HTTP 404 - Product not found"
    ∧ UEvent.savedFailed url "HTTP 404 - Product not found"
        ∈ (u_scrape_product us url (UOutcome.http 404 rec)).2.2
    ∧ (u_scrape_product us url (UOutcome.http 404 rec)).2.1.checkpointData
        = us.checkpointData := by
  obtain ⟨m, hm2⟩ : ∃ m, cfg.maxRetries = m + 1 := ⟨cfg.maxRetries - 1, by omega⟩
  rw [scrape_product_not_banned cfg env tCheck tAt pid s hb, hm2]
  have hraptor :
      scrapeAttempts cfg env tAt pid 0 (m + 1)
          { s with requestsInSession := s.requestsInSession + 1,
                   totalRequests := s.totalRequests + 1 }
        = (none,
           { s with requestsInSession := s.requestsInSession + 1,
                    totalRequests := s.totalRequests + 1,
                    consecutiveErrors := 0 },
           [REvent.request (tAt 0) 0 s.banDetected s.cooldownUntil]) := by
    simp [scrapeAttempts, henv]
  rw [hraptor]
  refine ⟨rfl, rfl, by simp [countFailures, List.countP_cons, isFailureEv],
    by simp [countCheckpointUpdates, List.countP_cons, isCheckpointEv],
    by simp [countRequests, List.countP_cons, isRequestEv], ?_⟩
  obtain ⟨pmgr, cd, fu, su, fa, rl⟩ := us
  cases pmgr with
  | none => simp [u_scrape_product, save_failed]
  | some pm =>
    rcases hgp : get_next_proxy pm with ⟨p, pm1⟩
    simp [u_scrape_product, hgp, save_failed]

/-- Witness for C6: concrete 404 runs of both pipelines. -/
theorem claimC6_not_found_witness :
    (scrape_product cfgC6w (fun _ => ROutcome.http 404 none) 0 (fun k => k) 9 {}).1 = none
    ∧ (scrape_product cfgC6w (fun _ => ROutcome.http 404 none) 0
        (fun k => k) 9 {}).2.1.consecutiveErrors = 0
    ∧ countFailures (scrape_product cfgC6w (fun _ => ROutcome.http 404 none) 0
        (fun k => k) 9 {}).2.2 = 0
    ∧ (u_scrape_product usC6w "u" (UOutcome.http 404 recC6w)).1 = none :=
  ⟨(claimC6_not_found cfgC6w (fun _ => ROutcome.http 404 none) 0 (fun k => k) 9 {} none
      usC6w "u" recC6w rfl rfl (by decide)).1,
   (claimC6_not_found cfgC6w (fun _ => ROutcome.http 404 none) 0 (fun k => k) 9 {} none
      usC6w "u" recC6w rfl rfl (by decide)).2.1,
   (claimC6_not_found cfgC6w (fun _ => ROutcome.http 404 none) 0 (fun k => k) 9 {} none
      usC6w "u" recC6w rfl rfl (by decide)).2.2.1,
   (claimC6_not_found cfgC6w (fun _ => ROutcome.http 404 none) 0 (fun k => k) 9 {} none
      usC6w "u" recC6w rfl rfl (by decide)).2.2.2.2.2.1⟩

/-- C7 counterexample: an OTHER_ERROR outcome arising from a raised exception at
attempt 0 is followed by a 5-second wait, not the 10-second wait the claim
requires for OTHER_ERROR. -/
theorem claimC7_counterexample :
    ((scrapeAttempts cfgC7x (fun _ => ROutcome.exn) (fun _ => 0) 1 0 2 {}).2.2)[2]?
      = some (REvent.sleep 5)
    ∧ REvent.sleep 5 ≠ REvent.sleep 10 :=
  ⟨by decide, by decide⟩

/-- C7 (amended): before the next retry the loop waits exactly `(attempt+1)*30`
seconds after a Blocked (403) outcome, `(attempt+1)*10` seconds after an
OTHER_ERROR arising from a non-200/403/404 HTTP status, and `(attempt+1)*5`
seconds after a Timeout — and also `(attempt+1)*5` (not `*10`) after an
OTHER_ERROR arising from a raised exception, the amendment forced by the
counterexample. -/
theorem claimC7_backoff (cfg : RConfig) (env : Nat → ROutcome) (tAt : Nat → Nat)
    (pid attempt r : Nat) (s : RState) (status : Nat) (parsed : Option Nat) :
    (env attempt = ROutcome.http 403 parsed →
      ((scrapeAttempts cfg env tAt pid attempt (r + 2) s).2.2)[2]?
        = some (REvent.sleep ((attempt + 1) * 30)))
    ∧ (env attempt = ROutcome.http status parsed → status ≠ 404 → status ≠ 403 → status ≠ 200 →
      ((scrapeAttempts cfg env tAt pid attempt (r + 2) s).2.2)[2]?
        = some (REvent.sleep ((attempt + 1) * 10)))
    ∧ (env attempt = ROutcome.timeout →
      ((scrapeAttempts cfg env tAt pid attempt (r + 2) s).2.2)[2]?
        = some (REvent.sleep ((attempt + 1) * 5)))
    ∧ (env attempt = ROutcome.exn →
      ((scrapeAttempts cfg env tAt pid attempt (r + 2) s).2.2)[2]?
        = some (REvent.sleep ((attempt + 1) * 5))) := by
  refine ⟨fun h => ?_, fun h h404 h403 h200 => ?_, fun h => ?_, fun h => ?_⟩
  · simp [scrapeAttempts, h, handle_error_eq]
  · simp [scrapeAttempts, h, h404, h403, h200, handle_error_eq]
  · simp [scrapeAttempts, h, handle_error_eq]
  · simp [scrapeAttempts, h, handle_error_eq]

/-- Witness for C7: concrete non-terminal attempts with 403, 500 and timeout
outcomes produce waits of 30, 10 and 5 seconds. -/
theorem claimC7_backoff_witness :
    ((scrapeAttempts cfgC7w (fun _ => ROutcome.http 403 none) (fun k => k) 1 0 2 {}).2.2)[2]?
      = some (REvent.sleep 30)
    ∧ ((scrapeAttempts cfgC7w (fun _ => ROutcome.http 500 none) (fun k => k) 1 0 2 {}).2.2)[2]?
      = some (REvent.sleep 10)
    ∧ ((scrapeAttempts cfgC7w (fun _ => ROutcome.timeout) (fun k => k) 1 0 2 {}).2.2)[2]?
      = some (REvent.sleep 5) :=
  ⟨(claimC7_backoff cfgC7w (fun _ => ROutcome.http 403 none) (fun k => k) 1 0 0 {}
      403 none).1 rfl,
   (claimC7_backoff cfgC7w (fun _ => ROutcome.http 500 none) (fun k => k) 1 0 0 {}
      500 none).2.1 rfl (by decide) (by decide) (by decide),
   (claimC7_backoff cfgC7w (fun _ => ROutcome.timeout) (fun k => k) 1 0 0 {}
      500 none).2.2.1 rfl⟩

/-- C8 counterexample: on HTTP 200 with the required name field absent,
`RaptorSuppliesScraper.scrape_product` (with `max_retries = 3`) issues
exactly one request and writes no Failure entry — the parse failure is not
treated as OTHER_ERROR (no retry, no failure record); and `URLFileScraper`
commits a record whose required name field is empty. -/
theorem claimC8_counterexample :
    countRequests (scrape_product cfgC8x (fun _ => ROutcome.http 200 none) 0
        (fun _ => 0) 1 {}).2.2 = 1
    ∧ countFailures (scrape_product cfgC8x (fun _ => ROutcome.http 200 none) 0
        (fun _ => 0) 1 {}).2.2 = 0
    ∧ cfgC8x.maxRetries = 3
    ∧ (u_scrape_product usC8x "u" (UOutcome.http 200 recC8x)).2.1.checkpointData
        = [("u", { recC8x with url := "u" })]
    ∧ recC8x.name = "" :=
  ⟨by decide, by decide, rfl, by decide, rfl⟩

/-- C8 (amended): on a 200 response the payload is parsed; in
`RaptorSuppliesScraper`, if parsing succeeds the record is returned with the
in-memory checkpoint updated and the counter reset, but if the required
field is absent the call returns `none` immediately with no retry and no
Failure entry (not treated as OTHER_ERROR); `URLFileScraper` commits the
extracted record to the checkpoint unconditionally, whether or not the
required name field is present. -/
theorem claimC8_success_parse (cfg : RConfig) (env : Nat → ROutcome) (tCheck : Nat)
    (tAt : Nat → Nat) (pid : Nat) (s : RState) (d : Nat) (us : UState) (url : String)
    (rec : UProduct) (hb : s.banDetected = false) (hm : 1 ≤ cfg.maxRetries) :
    (env 0 = ROutcome.http 200 (some d) →
      (scrape_product cfg env tCheck tAt pid s).1 = some d
      ∧ (scrape_product cfg env tCheck tAt pid s).2.1.consecutiveErrors = 0
      ∧ REvent.checkpointUpdated pid ∈ (scrape_product cfg env tCheck tAt pid s).2.2)
    ∧ (env 0 = ROutcome.http 200 none →
      (scrape_product cfg env tCheck tAt pid s).1 = none
      ∧ countFailures (scrape_product cfg env tCheck tAt pid s).2.2 = 0
      ∧ countRequests (scrape_product cfg env tCheck tAt pid s).2.2 = 1)
    ∧ ((u_scrape_product us url (UOutcome.http 200 rec)).1 = some { rec with url := url }
      ∧ (u_scrape_product us url (UOutcome.http 200 rec)).2.1.checkpointData
          = save_checkpoint us.checkpointData { rec with url := url }
      ∧ UEvent.savedCheckpoint url ∈ (u_scrape_product us url (UOutcome.http 200 rec)).2.2) := by
  obtain ⟨m, hm2⟩ : ∃ m, cfg.maxRetries = m + 1 := ⟨cfg.maxRetries - 1, by omega⟩
  refine ⟨fun h => ?_, fun h => ?_, ?_⟩
  · rw [scrape_product_not_banned cfg env tCheck tAt pid s hb, hm2]
    by_cases hck : (s.productsScraped + 1) % cfg.checkpointInterval = 0
    · simp [scrapeAttempts, h, hck]
    · simp [scrapeAttempts, h, hck]
  · rw [scrape_product_not_banned cfg env tCheck tAt pid s hb, hm2]
    refine ⟨by simp [scrapeAttempts, h], ?_, ?_⟩
    · simp [scrapeAttempts, h, countFailures, List.countP_cons, isFailureEv]
    · simp [scrapeAttempts, h, countRequests, List.countP_cons, isRequestEv]
  · obtain ⟨pmgr, cd, fu, su, fa, rl⟩ := us
    cases pmgr with
    | none => simp [u_scrape_product, save_checkpoint]
    | some pm =>
      rcases hgp : get_next_proxy pm with ⟨p, pm1⟩
      simp [u_scrape_product, hgp, save_checkpoint]

/-- Witness for C8: concrete 200 responses with and without a parsed record, and
a `URLFileScraper` commit. -/
theorem claimC8_success_parse_witness :
    (scrape_product cfgC8w (fun _ => ROutcome.http 200 (some 42)) 0 (fun k => k) 3 {}).1
      = some 42
    ∧ (scrape_product cfgC8w (fun _ => ROutcome.http 200 none) 0 (fun k => k) 3 {}).1 = none
    ∧ (u_scrape_product usC8w "https://x/p" (UOutcome.http 200 recC8w)).1
        = some { recC8w with url := "https://x/p" } :=
  ⟨((claimC8_success_parse cfgC8w (fun _ => ROutcome.http 200 (some 42)) 0 (fun k => k) 3 {}
      42 usC8w "https://x/p" recC8w rfl (by decide)).1 rfl).1,
   ((claimC8_success_parse cfgC8w (fun _ => ROutcome.http 200 none) 0 (fun k => k) 3 {}
      42 usC8w "https://x/p" recC8w rfl (by decide)).2.1 rfl).1,
   (claimC8_success_parse cfgC8w (fun _ => ROutcome.http 200 none) 0 (fun k => k) 3 {}
      42 usC8w "https://x/p" recC8w rfl (by decide)).2.2.1⟩

/-- C9: when the session request counter has reached `requests_per_session`, the
next `_get_session` call closes the current session, builds a new one whose
headers carry the freshly chosen random user-agent (an element of the
configured pool), and resets the counter to zero; below the limit the same
session is returned with the state unchanged. -/
theorem claimC9_session_rotation (cfg : SessionConfig) (uaChoice : Nat) (refCoin : Bool)
    (st : SessionState) (old : RSession) (hs : st.session = some old)
    (hua : uaChoice < cfg.userAgents.length) :
    (cfg.requestsPerSession ≤ st.requestsInSession →
      (get_session cfg uaChoice refCoin st).2.2 = true
      ∧ (get_session cfg uaChoice refCoin st).2.1.requestsInSession = 0
      ∧ (get_session cfg uaChoice refCoin st).2.1.session
          = some (get_session cfg uaChoice refCoin st).1
      ∧ (get_session cfg uaChoice refCoin st).1.headers.userAgent
          = cfg.userAgents.getD uaChoice ""
      ∧ (get_session cfg uaChoice refCoin st).1.headers.userAgent ∈ cfg.userAgents)
    ∧ (st.requestsInSession < cfg.requestsPerSession →
      get_session cfg uaChoice refCoin st = (old, st, false)) := by
  have hmem : cfg.userAgents.getD uaChoice "" ∈ cfg.userAgents := by
    rw [List.getD_eq_getElem cfg.userAgents "" hua]
    exact List.getElem_mem hua
  have hmem2 : (cfg.userAgents[uaChoice]?).getD "" ∈ cfg.userAgents := by
    rw [List.getElem?_eq_getElem hua]
    exact List.getElem_mem hua
  obtain ⟨sess, cnt⟩ := st
  simp only at hs
  subst hs
  constructor
  · intro hle
    simp only at hle
    simp [get_session, get_headers, hle, hmem, hmem2]
  · intro hlt
    simp only at hlt
    simp [get_session, Nat.not_le.mpr hlt]

/-- Witness for C9: a concrete state at the limit rotates to user agent UA-2;
one below the limit is returned unchanged. -/
theorem claimC9_session_rotation_witness :
    ((get_session cfgC9w 1 false stC9w).2.2 = true
      ∧ (get_session cfgC9w 1 false stC9w).2.1.requestsInSession = 0
      ∧ (get_session cfgC9w 1 false stC9w).2.1.session
          = some (get_session cfgC9w 1 false stC9w).1
      ∧ (get_session cfgC9w 1 false stC9w).1.headers.userAgent = cfgC9w.userAgents.getD 1 ""
      ∧ (get_session cfgC9w 1 false stC9w).1.headers.userAgent ∈ cfgC9w.userAgents)
    ∧ get_session cfgC9w 1 false stC9w2 = (oldC9w, stC9w2, false) :=
  ⟨(claimC9_session_rotation cfgC9w 1 false stC9w oldC9w rfl (by decide)).1 (by decide),
   (claimC9_session_rotation cfgC9w 1 false stC9w2 oldC9w rfl (by decide)).2 (by decide)⟩

/-- C10: with an empty identity pool, `get_next_proxy` returns `none` without
failing, and `URLFileScraper.scrape_product` still issues its request with
no proxy (direct egress) rather than failing the item; on a non-empty pool
`get_next_proxy` always returns the proxy under the round-robin cursor — the
acquisition step is total. -/
theorem claimC10_empty_pool (us : UState) (pm : ProxyState) (url : String) (out : UOutcome)
    (hpm : us.proxyMgr = some pm) (hempty : pm.proxies = []) :
    get_next_proxy pm = (none, pm)
    ∧ (u_scrape_product us url out).2.2.head? = some (UEvent.request none)
    ∧ (∀ ps : ProxyState, ps.proxies ≠ [] →
        (get_next_proxy ps).1
          = some (ps.proxies.getD (ps.proxyIndex % ps.proxies.length) "")) := by
  have hg : get_next_proxy pm = (none, pm) := by simp [get_next_proxy, hempty]
  refine ⟨hg, ?_, fun ps hne => by simp [get_next_proxy, hne]⟩
  obtain ⟨pmgr, cd, fu, su, fa, rl⟩ := us
  simp only at hpm
  subst hpm
  cases out with
  | exn msg => simp [u_scrape_product, hg]
  | http status rec =>
    simp only [u_scrape_product, hg]
    split_ifs <;> simp

/-- Witness for C10: a concrete empty pool yields `none` and the request is
issued proxy-less. -/
theorem claimC10_empty_pool_witness :
    get_next_proxy pmC10w = (none, pmC10w)
    ∧ (u_scrape_product usC10w "https://x/p" (UOutcome.http 200 recC10w)).2.2.head?
        = some (UEvent.request none) :=
  ⟨(claimC10_empty_pool usC10w pmC10w "https://x/p" (UOutcome.http 200 recC10w) rfl rfl).1,
   (claimC10_empty_pool usC10w pmC10w "https://x/p" (UOutcome.http 200 recC10w) rfl rfl).2.1⟩

end MRO
